import Mathlib

/-!
Verification of the f1_track_animations repository

Shallow embedding of `src/database/init_db.py` (ingestion into the two
DuckDB tables `lap_summary` and `telemetry`) and of the query/render
pipeline of `src/streamlit/app.py`.

Modelling conventions:
* DuckDB tables are lists of rows; `INSERT` appends at the end.
* Machine floats holding lap times and telemetry values are modelled as
  rationals (`ℚ`); the X/Y coordinates may be NULL in the table, hence
  `Option ℚ`.
* A `pandas.Timedelta` lap time is stored via `total_seconds()`; the model
  carries lap times directly as rational seconds.
* The fallible external calls (`Lap.get_telemetry()`) are modelled by a
  `telOk` flag on each lap: `telOk = false` means the call raises, which the
  `try/except` in `process_race_data` turns into "skip the rest of this
  driver's processing".
* `results['Abbreviation'].tolist()` is a list of driver codes; each driver
  carries the list of its laps (`session.laps.pick_driver`), a lap carrying
  the `Time`-column NaN flag used by the `notna()` filter, its `LapTime`,
  its lap number and its telemetry samples.
-/

set_option maxHeartbeats 1000000

namespace F1Track

/-- A row of the `lap_summary` table (`create_tables` in init_db.py). -/
structure LapSummaryRow where
  year : Int
  race_name : String
  driver_code : String
  lap_category : String
  lap_number : Int
  lap_time : ℚ
deriving DecidableEq

/-- One telemetry sample as delivered by `get_telemetry().add_distance()`:
the columns X, Y, Speed, Throttle, nGear, Brake, RPM, Distance. X and Y may
be NULL (the app drops such rows with `dropna`). -/
structure TelemetrySample where
  X : Option ℚ
  Y : Option ℚ
  Speed : ℚ
  Throttle : ℚ
  nGear : Int
  Brake : ℚ
  RPM : ℚ
  Distance : ℚ
deriving DecidableEq

/-- A row of the `telemetry` table (`create_tables` in init_db.py). -/
structure TelemetryRow where
  year : Int
  race_name : String
  driver_code : String
  lap_category : String
  lap_number : Int
  telemetry_index : Int
  sample : TelemetrySample
deriving DecidableEq

/-- The database state: the two tables created by `create_tables`. -/
structure DB where
  lap_summary : List LapSummaryRow
  telemetry : List TelemetryRow
deriving DecidableEq

/-- The empty database (fresh file after `create_tables`). -/
def emptyDB : DB := ⟨[], []⟩

/-- One lap of a driver as seen by ingestion: its lap number, whether the
`Time` column is not NaN (the `notna()` filter), its `LapTime` in seconds,
its telemetry samples, and whether `get_telemetry()` succeeds. -/
structure Lap where
  lapNumber : Int
  timeNotNa : Bool
  lapTime : ℚ
  tel : List TelemetrySample
  telOk : Bool
deriving DecidableEq

/-- A driver of a session: abbreviation code and laps. -/
structure Driver where
  code : String
  laps : List Lap
deriving DecidableEq

/-- A loaded race session: the drivers in `results['Abbreviation']` order. -/
structure Session where
  drivers : List Driver
deriving DecidableEq

/-- Model of `insert_lap_summary` (init_db.py lines 60-67): appends one row. -/
def insert_lap_summary (con : DB) (year : Int) (race_name driver_code lap_category : String)
    (lap_number : Int) (lap_time : ℚ) : DB :=
  { con with lap_summary := con.lap_summary ++
      [⟨year, race_name, driver_code, lap_category, lap_number, lap_time⟩] }

/-- The telemetry rows built by `insert_telemetry` (init_db.py lines 69-85):
the dataframe index after `reset_index(drop=True)` becomes `telemetry_index`,
counting up from `i`. -/
def telemetryRowsFrom (year : Int) (race_name driver_code lap_category : String)
    (lap_number : Int) (i : Int) : List TelemetrySample → List TelemetryRow
  | [] => []
  | smp :: rest =>
      ⟨year, race_name, driver_code, lap_category, lap_number, i, smp⟩ ::
        telemetryRowsFrom year race_name driver_code lap_category lap_number (i + 1) rest

/-- Model of `insert_telemetry` (init_db.py lines 69-85): appends all sample rows of
one lap to the `telemetry` table. -/
def insert_telemetry (con : DB) (df_tel : List TelemetrySample) (year : Int)
    (race_name driver_code lap_category : String) (lap_number : Int) : DB :=
  { con with telemetry := con.telemetry ++
      telemetryRowsFrom year race_name driver_code lap_category lap_number 0 df_tel }

/-- Model of `driver_laps[driver_laps['Time'].notna()]` (init_db.py line 99). -/
def validLaps (dr : Driver) : List Lap :=
  dr.laps.filter (fun l => l.timeNotNa)

/-- Model of `driver_laps.loc[driver_laps['LapTime'].idxmin()]`: the first lap
attaining the minimum lap time (pandas `idxmin` returns the first index). -/
def argminLap : List Lap → Option Lap
  | [] => none
  | l :: rest => some (rest.foldl (fun m x => if x.lapTime < m.lapTime then x else m) l)

/-- Model of `driver_laps.loc[driver_laps['LapTime'].idxmax()]`: the first lap
attaining the maximum lap time. -/
def argmaxLap : List Lap → Option Lap
  | [] => none
  | l :: rest => some (rest.foldl (fun m x => if m.lapTime < x.lapTime then x else m) l)

/-- The running `overall_fastest` accumulator of `process_race_data`:
`None` or `(lap_time_fast, driver, fastest_lap)`. -/
abbrev OverallAcc := Option (ℚ × String × Lap)

/-- The fastest lap of a driver if the whole loop body succeeds for that
driver (valid laps exist and both `get_telemetry()` calls succeed); `none`
when the driver is skipped, completely or partially. -/
def driverSuccess (dr : Driver) : Option Lap :=
  match argminLap (validLaps dr), argmaxLap (validLaps dr) with
  | some f, some s => if f.telOk && s.telOk then some f else none
  | _, _ => none

/-- The update of `overall_fastest` performed at init_db.py lines 124-125:
only drivers whose loop body reached that line (fully successful) compete,
with strict `<` so the earlier driver wins ties. -/
def overallStep (acc : OverallAcc) (dr : Driver) : OverallAcc :=
  match driverSuccess dr with
  | none => acc
  | some f =>
    match acc with
    | none => some (f.lapTime, dr.code, f)
    | some (t, c, l) =>
        if f.lapTime < t then some (f.lapTime, dr.code, f) else some (t, c, l)

/-- The body of the per-driver loop of `process_race_data`
(init_db.py lines 97-129), acting on the database and the
`overall_fastest` accumulator. A failing `get_telemetry()` raises, so the
`except` clause leaves the inserts done so far in place and moves on. -/
def processDriver (year : Int) (race_name : String) (st : DB × OverallAcc)
    (dr : Driver) : DB × OverallAcc :=
  let driver_laps := validLaps dr
  match argminLap driver_laps, argmaxLap driver_laps with
  | some fastest_lap, some slowest_lap =>
    if fastest_lap.telOk then
      let db1 := insert_lap_summary st.1 year race_name dr.code "fastest"
        fastest_lap.lapNumber fastest_lap.lapTime
      let db2 := insert_telemetry db1 fastest_lap.tel year race_name dr.code "fastest"
        fastest_lap.lapNumber
      if slowest_lap.telOk then
        let db3 := insert_lap_summary db2 year race_name dr.code "slowest"
          slowest_lap.lapNumber slowest_lap.lapTime
        let db4 := insert_telemetry db3 slowest_lap.tel year race_name dr.code "slowest"
          slowest_lap.lapNumber
        let acc : OverallAcc :=
          match st.2 with
          | none => some (fastest_lap.lapTime, dr.code, fastest_lap)
          | some (t, c, l) =>
              if fastest_lap.lapTime < t then some (fastest_lap.lapTime, dr.code, fastest_lap)
              else some (t, c, l)
        (db4, acc)
      else (db2, st.2)
    else (st.1, st.2)
  | _, _ => (st.1, st.2)

/-- Model of `process_race_data` (init_db.py lines 87-141): loop over the drivers,
then insert the `overall` rows for the tracked overall-fastest lap, if any.
(The overall block refetches the telemetry of a lap whose fetch already
succeeded in the loop, so in the model it succeeds.) -/
def process_race_data (year : Int) (race_name : String) (session : Session)
    (con : DB) : DB :=
  let res := session.drivers.foldl (processDriver year race_name) (con, none)
  match res.2 with
  | none => res.1
  | some (t, c, l) =>
      let db1 := insert_lap_summary res.1 year race_name c "overall" l.lapNumber t
      insert_telemetry db1 l.tel year race_name c "overall" l.lapNumber

/-- Constant `RACE_NAMES` (init_db.py lines 11-17). -/
def RACE_NAMES : List String :=
  ["Monaco Grand Prix", "Italian Grand Prix", "Singapore Grand Prix",
   "Belgian Grand Prix", "United States Grand Prix"]

/-- Constant `YEAR` (init_db.py line 18). -/
def YEAR : Int := 2024

/-- Model of `initialize_database` (init_db.py lines 143-174), with the external API
abstracted as a map from race name to loaded session data. `create_tables`
uses CREATE TABLE IF NOT EXISTS and never touches rows, so it is the
identity on an existing database state. -/
def initialize_database (api : String → Session) (con : DB) : DB :=
  RACE_NAMES.foldl (fun db race => process_race_data YEAR race (api race) db) con

/-! ## Decomposition of ingestion into per-driver row batches -/

/-- Concatenation of the images of `f` over a list, in order. -/
def concatMap {α β : Type} (f : α → List β) : List α → List β
  | [] => []
  | a :: l => f a ++ concatMap f l

/-- The `lap_summary` rows that the loop body of `process_race_data` appends
for one driver: both rows on full success, only the `fastest` row when the
slowest lap's telemetry fetch raises, nothing otherwise. -/
def driverSummaryRows (year : Int) (race_name : String) (dr : Driver) :
    List LapSummaryRow :=
  match argminLap (validLaps dr), argmaxLap (validLaps dr) with
  | some f, some s =>
    if f.telOk then
      if s.telOk then
        [⟨year, race_name, dr.code, "fastest", f.lapNumber, f.lapTime⟩,
         ⟨year, race_name, dr.code, "slowest", s.lapNumber, s.lapTime⟩]
      else [⟨year, race_name, dr.code, "fastest", f.lapNumber, f.lapTime⟩]
    else []
  | _, _ => []

/-- The `telemetry` rows that the loop body appends for one driver. -/
def driverTelemetryRows (year : Int) (race_name : String) (dr : Driver) :
    List TelemetryRow :=
  match argminLap (validLaps dr), argmaxLap (validLaps dr) with
  | some f, some s =>
    if f.telOk then
      if s.telOk then
        telemetryRowsFrom year race_name dr.code "fastest" f.lapNumber 0 f.tel ++
          telemetryRowsFrom year race_name dr.code "slowest" s.lapNumber 0 s.tel
      else telemetryRowsFrom year race_name dr.code "fastest" f.lapNumber 0 f.tel
    else []
  | _, _ => []

/-- The `overall` rows appended after the loop, as `lap_summary` rows. -/
def overallSummaryRows (year : Int) (race_name : String) (session : Session) :
    List LapSummaryRow :=
  match session.drivers.foldl overallStep none with
  | none => []
  | some (t, c, l) => [⟨year, race_name, c, "overall", l.lapNumber, t⟩]

/-- The `overall` rows appended after the loop, as `telemetry` rows. -/
def overallTelemetryRows (year : Int) (race_name : String) (session : Session) :
    List TelemetryRow :=
  match session.drivers.foldl overallStep none with
  | none => []
  | some (_, c, l) => telemetryRowsFrom year race_name c "overall" l.lapNumber 0 l.tel

theorem processDriver_eq (year : Int) (race_name : String) (db : DB)
    (acc : OverallAcc) (dr : Driver) :
    processDriver year race_name (db, acc) dr =
      ({ lap_summary := db.lap_summary ++ driverSummaryRows year race_name dr,
         telemetry := db.telemetry ++ driverTelemetryRows year race_name dr },
       overallStep acc dr) := by
  unfold processDriver driverSummaryRows driverTelemetryRows overallStep driverSuccess
  cases hmin : argminLap (validLaps dr) with
  | none =>
    cases hmax : argmaxLap (validLaps dr) <;> simp [hmin, hmax]
  | some f =>
    cases hmax : argmaxLap (validLaps dr) with
    | none => simp [hmin, hmax]
    | some s =>
      by_cases hft : f.telOk <;> by_cases hst : s.telOk <;>
        cases acc <;>
          simp [hmin, hmax, hft, hst, insert_lap_summary, insert_telemetry,
            List.append_assoc]

theorem foldl_processDriver (year : Int) (race_name : String) :
    ∀ (drs : List Driver) (db : DB) (acc : OverallAcc),
      drs.foldl (processDriver year race_name) (db, acc) =
        ({ lap_summary := db.lap_summary ++ concatMap (driverSummaryRows year race_name) drs,
           telemetry := db.telemetry ++ concatMap (driverTelemetryRows year race_name) drs },
         drs.foldl overallStep acc)
  | [], db, acc => by simp [concatMap]
  | dr :: drs, db, acc => by
    rw [List.foldl_cons, processDriver_eq, foldl_processDriver year race_name drs]
    simp [concatMap, List.append_assoc]

/-- The full effect of `process_race_data` on the database: it appends, to
each table, the per-driver batches in driver order followed by the
`overall` rows. -/
theorem process_race_data_eq (year : Int) (race_name : String) (s : Session)
    (db : DB) :
    process_race_data year race_name s db =
      { lap_summary := db.lap_summary
          ++ concatMap (driverSummaryRows year race_name) s.drivers
          ++ overallSummaryRows year race_name s,
        telemetry := db.telemetry
          ++ concatMap (driverTelemetryRows year race_name) s.drivers
          ++ overallTelemetryRows year race_name s } := by
  unfold process_race_data overallSummaryRows overallTelemetryRows
  rw [foldl_processDriver]
  cases h : s.drivers.foldl overallStep none with
  | none => simp
  | some tcl =>
    obtain ⟨t, c, l⟩ := tcl
    simp [insert_lap_summary, insert_telemetry, List.append_assoc]

/-! ## Counting rows of the tables -/

/-- The ad-hoc join key of `lap_summary` used by the spec's claims:
year, race, driver and lap category. -/
def summaryKey (year : Int) (race code cat : String) (r : LapSummaryRow) : Bool :=
  r.year == year && r.race_name == race && r.driver_code == code &&
    r.lap_category == cat

/-- Number of `lap_summary` rows for a (year, race, driver, category) key. -/
def countSummary (db : DB) (year : Int) (race code cat : String) : Nat :=
  db.lap_summary.countP (summaryKey year race code cat)

theorem mem_driverSummaryRows (year : Int) (race : String) (dr : Driver) :
    ∀ r ∈ driverSummaryRows year race dr,
      r.year = year ∧ r.race_name = race ∧ r.driver_code = dr.code ∧
        (r.lap_category = "fastest" ∨ r.lap_category = "slowest") := by
  intro r hr
  unfold driverSummaryRows at hr
  cases hmin : argminLap (validLaps dr) with
  | none => rw [hmin] at hr; cases argmaxLap (validLaps dr) <;> simp at hr
  | some f =>
    cases hmax : argmaxLap (validLaps dr) with
    | none => rw [hmin, hmax] at hr; simp at hr
    | some s =>
      rw [hmin, hmax] at hr
      by_cases hft : f.telOk
      · by_cases hst : s.telOk
        · simp [hft, hst] at hr
          rcases hr with hr | hr <;> simp [hr]
        · simp [hft, hst] at hr
          simp [hr]
      · simp [hft] at hr

theorem countP_driverSummaryRows_ne (year : Int) (race code cat : String)
    (dr : Driver) (h : dr.code ≠ code) :
    (driverSummaryRows year race dr).countP (summaryKey year race code cat) = 0 := by
  rw [List.countP_eq_zero]
  intro r hr
  have hmem := mem_driverSummaryRows year race dr r hr
  simp [summaryKey, hmem.2.2.1, h]

theorem countP_concatMap_zero {α β : Type} (f : α → List β) (p : β → Bool) :
    ∀ l : List α, (∀ a ∈ l, (f a).countP p = 0) → (concatMap f l).countP p = 0
  | [], _ => rfl
  | a :: l, h => by
    rw [concatMap, List.countP_append, h a (List.mem_cons_self a l),
      countP_concatMap_zero f p l (fun b hb => h b (List.mem_cons_of_mem a hb))]

theorem countP_overallSummaryRows (year : Int) (race code cat : String)
    (s : Session) (hcat : cat ≠ "overall") :
    (overallSummaryRows year race s).countP (summaryKey year race code cat) = 0 := by
  unfold overallSummaryRows
  cases h : s.drivers.foldl overallStep none with
  | none => rfl
  | some tcl =>
    obtain ⟨t, c, l⟩ := tcl
    simp [summaryKey]
    exact fun _ he => hcat he.symm

/-- concatMap distributes over list append. -/
theorem concatMap_append {α β : Type} (f : α → List β) :
    ∀ l1 l2 : List α, concatMap f (l1 ++ l2) = concatMap f l1 ++ concatMap f l2
  | [], _ => rfl
  | a :: l1, l2 => by
    rw [List.cons_append, concatMap, concatMap, concatMap_append f l1 l2,
      List.append_assoc]

theorem countSummary_process_race_data (year : Int) (race : String) (s : Session)
    (db : DB) (code cat : String) (hcat : cat ≠ "overall") :
    countSummary (process_race_data year race s db) year race code cat =
      countSummary db year race code cat +
        (concatMap (driverSummaryRows year race) s.drivers).countP
          (summaryKey year race code cat) := by
  rw [process_race_data_eq]
  simp [countSummary, List.countP_append,
    countP_overallSummaryRows year race code cat s hcat]

theorem codes_ne_of_nodup (ds1 ds2 : List Driver) (dr : Driver)
    (h : ((ds1 ++ dr :: ds2).map Driver.code).Nodup) :
    ∀ d ∈ ds1 ++ ds2, d.code ≠ dr.code := by
  rw [List.map_append, List.map_cons, List.nodup_middle, List.nodup_cons] at h
  intro d hd he
  apply h.1
  rw [← List.map_append]
  exact he ▸ List.mem_map_of_mem Driver.code hd

/-! ## The full ingestion run -/

/-- The `lap_summary` rows one race contributes to an ingestion run. -/
def raceSummaryBatch (api : String → Session) (race : String) : List LapSummaryRow :=
  concatMap (driverSummaryRows YEAR race) (api race).drivers ++
    overallSummaryRows YEAR race (api race)

/-- The `telemetry` rows one race contributes to an ingestion run. -/
def raceTelemetryBatch (api : String → Session) (race : String) : List TelemetryRow :=
  concatMap (driverTelemetryRows YEAR race) (api race).drivers ++
    overallTelemetryRows YEAR race (api race)

theorem foldl_process_races (api : String → Session) :
    ∀ (races : List String) (db : DB),
      races.foldl (fun d race => process_race_data YEAR race (api race) d) db =
        { lap_summary := db.lap_summary ++ concatMap (raceSummaryBatch api) races,
          telemetry := db.telemetry ++ concatMap (raceTelemetryBatch api) races }
  | [], db => by simp [concatMap]
  | race :: races, db => by
    rw [List.foldl_cons, process_race_data_eq, foldl_process_races api races]
    simp [concatMap, raceSummaryBatch, raceTelemetryBatch, List.append_assoc]

/-- The effect of a whole `initialize_database` run: it appends, to each
table, a batch of rows that depends only on the API data. -/
theorem initialize_database_eq (api : String → Session) (db : DB) :
    initialize_database api db =
      { lap_summary := db.lap_summary ++ concatMap (raceSummaryBatch api) RACE_NAMES,
        telemetry := db.telemetry ++ concatMap (raceTelemetryBatch api) RACE_NAMES } :=
  foldl_process_races api RACE_NAMES db

/-! ## Per-driver row counts after a race is processed -/

theorem countP_driverSummaryRows_success (year : Int) (race : String) (dr : Driver)
    (f sl : Lap) (hf : argminLap (validLaps dr) = some f)
    (hs : argmaxLap (validLaps dr) = some sl)
    (hft : f.telOk = true) (hst : sl.telOk = true) :
    (driverSummaryRows year race dr).countP (summaryKey year race dr.code "fastest") = 1 ∧
    (driverSummaryRows year race dr).countP (summaryKey year race dr.code "slowest") = 1 := by
  unfold driverSummaryRows
  rw [hf, hs]
  simp [hft, hst, summaryKey, List.countP_cons]

theorem countP_driverSummaryRows_partial (year : Int) (race : String) (dr : Driver)
    (f sl : Lap) (hf : argminLap (validLaps dr) = some f)
    (hs : argmaxLap (validLaps dr) = some sl)
    (hft : f.telOk = true) (hst : sl.telOk = false) :
    (driverSummaryRows year race dr).countP (summaryKey year race dr.code "fastest") = 1 ∧
    (driverSummaryRows year race dr).countP (summaryKey year race dr.code "slowest") = 0 := by
  unfold driverSummaryRows
  rw [hf, hs]
  simp [hft, hst, summaryKey, List.countP_cons]

/-- After processing a race, the count of rows keyed to one driver is the
initial count plus that driver's own batch: the batches of all the other
drivers (whose codes differ) and the `overall` row contribute nothing. -/
theorem countSummary_split (year : Int) (race : String) (s : Session) (db : DB)
    (code cat : String) (hcat : cat ≠ "overall")
    (ds1 ds2 : List Driver) (dr : Driver) (hsplit : s.drivers = ds1 ++ dr :: ds2)
    (hne : ∀ d ∈ ds1 ++ ds2, d.code ≠ code) :
    countSummary (process_race_data year race s db) year race code cat =
      countSummary db year race code cat +
        (driverSummaryRows year race dr).countP (summaryKey year race code cat) := by
  rw [countSummary_process_race_data year race s db code cat hcat, hsplit,
    concatMap_append]
  have h1 : (concatMap (driverSummaryRows year race) ds1).countP
      (summaryKey year race code cat) = 0 :=
    countP_concatMap_zero _ _ ds1 fun d hd =>
      countP_driverSummaryRows_ne year race code cat d
        (hne d (List.mem_append.mpr (Or.inl hd)))
  have h2 : (concatMap (driverSummaryRows year race) ds2).countP
      (summaryKey year race code cat) = 0 :=
    countP_concatMap_zero _ _ ds2 fun d hd =>
      countP_driverSummaryRows_ne year race code cat d
        (hne d (List.mem_append.mpr (Or.inr hd)))
  rw [List.countP_append, h1, concatMap, List.countP_append, h2]
  omega

/-! ## Claim C1 -/

/-- C1, counterexample input: a session whose only driver has one completed
lap (its `Time` is not NaN) whose telemetry fetch raises. -/
def sessionC1 : Session :=
  ⟨[⟨"VER", [⟨1, true, 70, [], false⟩]⟩]⟩

/-- C1 (counterexample): the claim "for every driver with at least one
completed lap, exactly one `fastest` row exists after `process_race_data`"
is false: here the driver has one completed lap, but `get_telemetry()`
raises, the `except` branch skips the driver, and zero `fastest` (and zero
`slowest`) rows are inserted. -/
theorem c1_counterexample :
    1 ≤ (validLaps ⟨"VER", [⟨1, true, 70, [], false⟩]⟩).length ∧
    countSummary (process_race_data 2024 "Monaco Grand Prix" sessionC1 emptyDB)
      2024 "Monaco Grand Prix" "VER" "fastest" ≠ 1 ∧
    countSummary (process_race_data 2024 "Monaco Grand Prix" sessionC1 emptyDB)
      2024 "Monaco Grand Prix" "VER" "fastest" = 0 := by
  refine ⟨by decide, by decide, by decide⟩

/-- C1 (amended): for every driver with at least one completed lap *whose
fastest- and slowest-lap telemetry extraction both succeed*, after
`process_race_data` finishes the `lap_summary` table contains exactly one
`fastest` and exactly one `slowest` row for that (year, race, driver),
provided it contained none before and driver codes are distinct. -/
theorem c1_fastest_slowest_unique (year : Int) (race : String) (s : Session)
    (db : DB) (ds1 ds2 : List Driver) (dr : Driver) (f sl : Lap)
    (hsplit : s.drivers = ds1 ++ dr :: ds2)
    (hnodup : (s.drivers.map Driver.code).Nodup)
    (hf : argminLap (validLaps dr) = some f)
    (hs : argmaxLap (validLaps dr) = some sl)
    (hft : f.telOk = true) (hst : sl.telOk = true)
    (h0f : countSummary db year race dr.code "fastest" = 0)
    (h0s : countSummary db year race dr.code "slowest" = 0) :
    countSummary (process_race_data year race s db) year race dr.code "fastest" = 1 ∧
    countSummary (process_race_data year race s db) year race dr.code "slowest" = 1 := by
  have hne := codes_ne_of_nodup ds1 ds2 dr (hsplit ▸ hnodup)
  have hcnt := countP_driverSummaryRows_success year race dr f sl hf hs hft hst
  constructor
  · rw [countSummary_split year race s db dr.code "fastest" (by decide) ds1 ds2 dr
      hsplit hne, h0f, hcnt.1]
  · rw [countSummary_split year race s db dr.code "slowest" (by decide) ds1 ds2 dr
      hsplit hne, h0s, hcnt.2]

/-- Witness for C1 (amended) at a concrete one-driver session. -/
theorem c1_fastest_slowest_unique_witness :
    countSummary
      (process_race_data 2024 "Monaco Grand Prix" ⟨[⟨"VER", [⟨1, true, 70, [], true⟩]⟩]⟩
        emptyDB) 2024 "Monaco Grand Prix" "VER" "fastest" = 1 ∧
    countSummary
      (process_race_data 2024 "Monaco Grand Prix" ⟨[⟨"VER", [⟨1, true, 70, [], true⟩]⟩]⟩
        emptyDB) 2024 "Monaco Grand Prix" "VER" "slowest" = 1 :=
  c1_fastest_slowest_unique 2024 "Monaco Grand Prix"
    ⟨[⟨"VER", [⟨1, true, 70, [], true⟩]⟩]⟩ emptyDB [] []
    ⟨"VER", [⟨1, true, 70, [], true⟩]⟩ ⟨1, true, 70, [], true⟩ ⟨1, true, 70, [], true⟩
    rfl (by decide) rfl rfl rfl rfl (by decide) (by decide)

/-! ## Claim C9: per-driver ingestion is not atomic -/

/-- A driver that is not fully processed is invisible to the
`overall_fastest` tracking fold. -/
theorem foldl_overallStep_skip (ds1 ds2 : List Driver) (dr : Driver)
    (h : driverSuccess dr = none) (acc : OverallAcc) :
    (ds1 ++ dr :: ds2).foldl overallStep acc = (ds1 ++ ds2).foldl overallStep acc := by
  rw [List.foldl_append, List.foldl_append, List.foldl_cons]
  congr 1
  simp [overallStep, h]

/-- C9: if the slowest-lap telemetry fetch of a driver raises after the
`fastest` rows were inserted, the `fastest` row stays in the table (no
rollback), no `slowest` row exists, and the driver is excluded from the
`overall_fastest` tracking (whatever their fastest-lap time). -/
theorem c9_partial_insert_no_rollback (year : Int) (race : String) (s : Session)
    (db : DB) (ds1 ds2 : List Driver) (dr : Driver) (f sl : Lap)
    (hsplit : s.drivers = ds1 ++ dr :: ds2)
    (hnodup : (s.drivers.map Driver.code).Nodup)
    (hf : argminLap (validLaps dr) = some f)
    (hs : argmaxLap (validLaps dr) = some sl)
    (hft : f.telOk = true) (hst : sl.telOk = false)
    (h0f : countSummary db year race dr.code "fastest" = 0)
    (h0s : countSummary db year race dr.code "slowest" = 0) :
    countSummary (process_race_data year race s db) year race dr.code "fastest" = 1 ∧
    countSummary (process_race_data year race s db) year race dr.code "slowest" = 0 ∧
    driverSuccess dr = none ∧
    s.drivers.foldl overallStep none = (ds1 ++ ds2).foldl overallStep none := by
  have hne := codes_ne_of_nodup ds1 ds2 dr (hsplit ▸ hnodup)
  have hcnt := countP_driverSummaryRows_partial year race dr f sl hf hs hft hst
  have hnone : driverSuccess dr = none := by
    unfold driverSuccess
    rw [hf, hs]
    simp [hft, hst]
  refine ⟨?_, ?_, hnone, ?_⟩
  · rw [countSummary_split year race s db dr.code "fastest" (by decide) ds1 ds2 dr
      hsplit hne, h0f, hcnt.1]
  · rw [countSummary_split year race s db dr.code "slowest" (by decide) ds1 ds2 dr
      hsplit hne, h0s, hcnt.2]
  · rw [hsplit, foldl_overallStep_skip ds1 ds2 dr hnone]

/-- The failing driver of the C9 witness: fastest lap (10s) has good
telemetry, slowest lap (20s) raises on `get_telemetry()`. -/
def driverA : Driver := ⟨"ALO", [⟨1, true, 10, [], true⟩, ⟨2, true, 20, [], false⟩]⟩

/-- A fully successful driver, fastest-lap time 15s. -/
def driverB : Driver := ⟨"BOT", [⟨3, true, 15, [], true⟩]⟩

/-- Session for the C9 witness and C2 counterexample. -/
def sessionAB : Session := ⟨[driverA, driverB]⟩

/-- Witness for C9 at a concrete two-driver session. -/
theorem c9_partial_insert_no_rollback_witness :
    countSummary (process_race_data 2024 "Monaco Grand Prix" sessionAB emptyDB)
      2024 "Monaco Grand Prix" "ALO" "fastest" = 1 ∧
    countSummary (process_race_data 2024 "Monaco Grand Prix" sessionAB emptyDB)
      2024 "Monaco Grand Prix" "ALO" "slowest" = 0 ∧
    driverSuccess driverA = none ∧
    sessionAB.drivers.foldl overallStep none = ([] ++ [driverB]).foldl overallStep none :=
  c9_partial_insert_no_rollback 2024 "Monaco Grand Prix" sessionAB emptyDB [] [driverB]
    driverA ⟨1, true, 10, [], true⟩ ⟨2, true, 20, [], false⟩ rfl (by decide)
    (by decide) (by decide) (by decide) (by decide) (by decide) (by decide)

/-! ## Claim C7: per-driver failures are skipped, the race run continues -/

theorem driverRows_nil_of_fail (year : Int) (race : String) (dr : Driver)
    (hfail : validLaps dr = [] ∨
      ∃ f, argminLap (validLaps dr) = some f ∧ f.telOk = false) :
    driverSummaryRows year race dr = [] ∧ driverTelemetryRows year race dr = [] := by
  unfold driverSummaryRows driverTelemetryRows
  rcases hfail with hnil | ⟨f, hf, hft⟩
  · rw [hnil]
    simp [argminLap]
  · cases hval : validLaps dr with
    | nil => rw [hval] at hf; simp [argminLap] at hf
    | cons a rest =>
      rw [hval] at hf
      simp [argminLap, argmaxLap] at hf ⊢
      rw [hf]
      simp [hft]

/-- C7: a driver whose extraction fails (no valid laps, or the fastest-lap
telemetry fetch raises before any insert) contributes no rows, and the rest
of the race's drivers are ingested exactly as usual: the run is never
aborted by a per-driver failure. -/
theorem c7_failures_skipped (year : Int) (race : String) (s : Session) (db : DB)
    (ds1 ds2 : List Driver) (dr : Driver)
    (hsplit : s.drivers = ds1 ++ dr :: ds2)
    (hfail : validLaps dr = [] ∨
      ∃ f, argminLap (validLaps dr) = some f ∧ f.telOk = false) :
    driverSummaryRows year race dr = [] ∧
    driverTelemetryRows year race dr = [] ∧
    (process_race_data year race s db).lap_summary =
      db.lap_summary ++ concatMap (driverSummaryRows year race) ds1
        ++ concatMap (driverSummaryRows year race) ds2
        ++ overallSummaryRows year race s ∧
    (process_race_data year race s db).telemetry =
      db.telemetry ++ concatMap (driverTelemetryRows year race) ds1
        ++ concatMap (driverTelemetryRows year race) ds2
        ++ overallTelemetryRows year race s := by
  obtain ⟨h1, h2⟩ := driverRows_nil_of_fail year race dr hfail
  refine ⟨h1, h2, ?_, ?_⟩ <;>
    rw [process_race_data_eq, hsplit] <;>
      simp [concatMap_append, concatMap, h1, h2, List.append_assoc]

/-- Witness for C7: a driver with no laps at all is skipped and the
following driver is ingested normally. -/
theorem c7_failures_skipped_witness :
    driverSummaryRows 2024 "Monaco Grand Prix" ⟨"GAS", []⟩ = [] ∧
    driverTelemetryRows 2024 "Monaco Grand Prix" ⟨"GAS", []⟩ = [] ∧
    (process_race_data 2024 "Monaco Grand Prix" ⟨[⟨"GAS", []⟩, driverB]⟩
        emptyDB).lap_summary =
      emptyDB.lap_summary
        ++ concatMap (driverSummaryRows 2024 "Monaco Grand Prix") []
        ++ concatMap (driverSummaryRows 2024 "Monaco Grand Prix") [driverB]
        ++ overallSummaryRows 2024 "Monaco Grand Prix" ⟨[⟨"GAS", []⟩, driverB]⟩ ∧
    (process_race_data 2024 "Monaco Grand Prix" ⟨[⟨"GAS", []⟩, driverB]⟩
        emptyDB).telemetry =
      emptyDB.telemetry
        ++ concatMap (driverTelemetryRows 2024 "Monaco Grand Prix") []
        ++ concatMap (driverTelemetryRows 2024 "Monaco Grand Prix") [driverB]
        ++ overallTelemetryRows 2024 "Monaco Grand Prix" ⟨[⟨"GAS", []⟩, driverB]⟩ :=
  c7_failures_skipped 2024 "Monaco Grand Prix" ⟨[⟨"GAS", []⟩, driverB]⟩ emptyDB
    [] [driverB] ⟨"GAS", []⟩ rfl (Or.inl rfl)

/-! ## Claim C5: rows are only ever appended -/

/-- C5: every state-changing operation of the system only appends rows:
each of `insert_lap_summary`, `insert_telemetry`, `process_race_data` and
`initialize_database` leaves every existing row of both tables in place
(the old table is a prefix of the new one) and the rendering path only
reads the tables. No operation updates or deletes a row. -/
theorem c5_append_only (db : DB) :
    (∀ (year : Int) (race code cat : String) (num : Int) (t : ℚ),
      ∃ tail, (insert_lap_summary db year race code cat num t).lap_summary =
          db.lap_summary ++ tail ∧
        (insert_lap_summary db year race code cat num t).telemetry = db.telemetry) ∧
    (∀ (tel : List TelemetrySample) (year : Int) (race code cat : String) (num : Int),
      ∃ tail, (insert_telemetry db tel year race code cat num).telemetry =
          db.telemetry ++ tail ∧
        (insert_telemetry db tel year race code cat num).lap_summary = db.lap_summary) ∧
    (∀ (year : Int) (race : String) (s : Session),
      ∃ t1 t2, (process_race_data year race s db).lap_summary = db.lap_summary ++ t1 ∧
        (process_race_data year race s db).telemetry = db.telemetry ++ t2) ∧
    (∀ api : String → Session,
      ∃ t1 t2, (initialize_database api db).lap_summary = db.lap_summary ++ t1 ∧
        (initialize_database api db).telemetry = db.telemetry ++ t2) := by
  refine ⟨fun year race code cat num t => ⟨_, rfl, rfl⟩,
    fun tel year race code cat num => ⟨_, rfl, rfl⟩, ?_, ?_⟩
  · intro year race s
    refine ⟨concatMap (driverSummaryRows year race) s.drivers
        ++ overallSummaryRows year race s,
      concatMap (driverTelemetryRows year race) s.drivers
        ++ overallTelemetryRows year race s, ?_, ?_⟩ <;>
      rw [process_race_data_eq] <;> simp [List.append_assoc]
  · intro api
    refine ⟨concatMap (raceSummaryBatch api) RACE_NAMES,
      concatMap (raceTelemetryBatch api) RACE_NAMES, ?_, ?_⟩ <;>
      rw [initialize_database_eq]

/-! ## Claim C4: re-running ingestion duplicates all rows -/

/-- The (year, race) key of a `lap_summary` row, as a Boolean predicate. -/
def raceKey (year : Int) (race : String) (r : LapSummaryRow) : Bool :=
  r.year == year && r.race_name == race

/-- The (year, race) key of a `telemetry` row, as a Boolean predicate. -/
def raceKeyTel (year : Int) (race : String) (r : TelemetryRow) : Bool :=
  r.year == year && r.race_name == race

/-- Number of `lap_summary` rows for a (year, race) pair. -/
def raceSummaryCount (db : DB) (year : Int) (race : String) : Nat :=
  db.lap_summary.countP (raceKey year race)

/-- Number of `telemetry` rows for a (year, race) pair. -/
def raceTelemetryCount (db : DB) (year : Int) (race : String) : Nat :=
  db.telemetry.countP (raceKeyTel year race)

/-- C4: running `initialize_database` a second time on the database produced
by a first run over the same API data appends the same batch again: every
per-(year, race) row count in both tables is doubled, so ingestion is not
idempotent. -/
theorem c4_reingest_doubles_rows (api : String → Session) (year : Int)
    (race : String) :
    raceSummaryCount (initialize_database api (initialize_database api emptyDB))
        year race =
      2 * raceSummaryCount (initialize_database api emptyDB) year race ∧
    raceTelemetryCount (initialize_database api (initialize_database api emptyDB))
        year race =
      2 * raceTelemetryCount (initialize_database api emptyDB) year race := by
  simp only [initialize_database_eq]
  simp [raceSummaryCount, raceTelemetryCount, emptyDB, List.countP_append, two_mul]

/-! ## Claim C2: the `overall` row and the race minimum -/

/-- The fastest-lap times of the drivers whose loop body fully succeeded —
the only drivers that reach the `overall_fastest` update. -/
def successFastestTimes (drs : List Driver) : List ℚ :=
  drs.filterMap fun dr => (driverSuccess dr).map Lap.lapTime

/-- The minimum of a list of lap times, `none` for the empty list. -/
def minList : List ℚ → Option ℚ
  | [] => none
  | t :: ts => some (ts.foldl min t)

/-- Following the spec's words ("the minimum fastest-lap time across that
race's drivers"): the minimum, over all drivers having any valid lap, of
that driver's fastest-lap time — with no regard to telemetry failures. -/
def specMinFastestLapTime (s : Session) : Option ℚ :=
  minList (s.drivers.filterMap fun dr => (argminLap (validLaps dr)).map Lap.lapTime)

theorem foldl_overallStep_some :
    ∀ (drs : List Driver) (t : ℚ) (c : String) (l : Lap),
      (drs.foldl overallStep (some (t, c, l))).map (fun x => x.1) =
        some ((successFastestTimes drs).foldl min t)
  | [], _, _, _ => rfl
  | dr :: drs, t, c, l => by
    rw [List.foldl_cons]
    cases hds : driverSuccess dr with
    | none =>
      have hstep : overallStep (some (t, c, l)) dr = some (t, c, l) := by
        simp [overallStep, hds]
      rw [hstep, foldl_overallStep_some drs t c l]
      simp [successFastestTimes, List.filterMap_cons, hds]
    | some f =>
      by_cases hlt : f.lapTime < t
      · have hstep : overallStep (some (t, c, l)) dr = some (f.lapTime, dr.code, f) := by
          simp [overallStep, hds, hlt]
        rw [hstep, foldl_overallStep_some drs f.lapTime dr.code f]
        have hmin : min t f.lapTime = f.lapTime := min_eq_right (le_of_lt hlt)
        simp [successFastestTimes, List.filterMap_cons, hds, hmin]
      · have hstep : overallStep (some (t, c, l)) dr = some (t, c, l) := by
          simp [overallStep, hds, hlt]
        rw [hstep, foldl_overallStep_some drs t c l]
        have hmin : min t f.lapTime = t := min_eq_left (le_of_not_lt hlt)
        simp [successFastestTimes, List.filterMap_cons, hds, hmin]

/-- The `overall_fastest` accumulator after the whole driver loop holds
exactly the minimum of the successful drivers' fastest-lap times. -/
theorem foldl_overallStep_none :
    ∀ drs : List Driver,
      (drs.foldl overallStep none).map (fun x => x.1) =
        minList (successFastestTimes drs)
  | [] => rfl
  | dr :: drs => by
    rw [List.foldl_cons]
    cases hds : driverSuccess dr with
    | none =>
      have hstep : overallStep none dr = none := by simp [overallStep, hds]
      rw [hstep, foldl_overallStep_none drs]
      simp [successFastestTimes, List.filterMap_cons, hds]
    | some f =>
      have hstep : overallStep none dr = some (f.lapTime, dr.code, f) := by
        simp [overallStep, hds]
      rw [hstep, foldl_overallStep_some drs f.lapTime dr.code f]
      simp [successFastestTimes, List.filterMap_cons, hds, minList]

/-- Number of `overall` rows for a (year, race) pair. -/
def countOverall (db : DB) (year : Int) (race : String) : Nat :=
  db.lap_summary.countP fun r =>
    r.year == year && r.race_name == race && r.lap_category == "overall"

theorem countP_driverSummaryRows_overall (year : Int) (race : String) (dr : Driver) :
    (driverSummaryRows year race dr).countP
      (fun r => r.year == year && r.race_name == race && r.lap_category == "overall")
      = 0 := by
  rw [List.countP_eq_zero]
  intro r hr
  have hmem := mem_driverSummaryRows year race dr r hr
  rcases hmem.2.2.2 with hc | hc <;> simp [hc]

/-- C2 (counterexample): in `sessionAB` driver ALO has the race's minimum
fastest-lap time (10s), but ALO's slowest-lap telemetry fetch raises, so ALO
never reaches the `overall_fastest` update: the unique `overall` row records
driver BOT's 15s, not the 10s minimum over all of the race's drivers. -/
theorem c2_counterexample :
    ((process_race_data 2024 "Monaco Grand Prix" sessionAB emptyDB).lap_summary.filter
        (fun r => r.lap_category == "overall")).map (fun r => r.lap_time) = [15] ∧
    specMinFastestLapTime sessionAB = some 10 ∧ (15 : ℚ) ≠ 10 :=
  ⟨by decide, by decide, by decide⟩

/-- C2 (amended): provided the table had no `overall` row for the race and
at least one driver is fully processed, after `process_race_data` exactly
one `overall` row exists for the race and its lap time is the minimum
fastest-lap time over the *fully successfully processed* drivers. -/
theorem c2_overall_row (year : Int) (race : String) (s : Session) (db : DB)
    (h0 : countOverall db year race = 0)
    (hne : successFastestTimes s.drivers ≠ []) :
    countOverall (process_race_data year race s db) year race = 1 ∧
    ∃ r ∈ (process_race_data year race s db).lap_summary,
      r.year = year ∧ r.race_name = race ∧ r.lap_category = "overall" ∧
        some r.lap_time = minList (successFastestTimes s.drivers) := by
  have hfold := foldl_overallStep_none s.drivers
  cases hacc : s.drivers.foldl overallStep none with
  | none =>
    rw [hacc] at hfold
    cases hst : successFastestTimes s.drivers with
    | nil => exact absurd hst hne
    | cons a ts => rw [hst] at hfold; simp [minList] at hfold
  | some tcl =>
    obtain ⟨t, c, l⟩ := tcl
    rw [hacc] at hfold
    constructor
    · rw [process_race_data_eq]
      unfold countOverall at h0 ⊢
      rw [List.countP_append, List.countP_append, h0]
      have hdrv := countP_concatMap_zero (driverSummaryRows year race)
        (fun r => r.year == year && r.race_name == race && r.lap_category == "overall")
        s.drivers (fun d _ => countP_driverSummaryRows_overall year race d)
      rw [hdrv]
      unfold overallSummaryRows
      rw [hacc]
      simp [List.countP_cons]
    · refine ⟨⟨year, race, c, "overall", l.lapNumber, t⟩, ?_, rfl, rfl, rfl, ?_⟩
      · rw [process_race_data_eq]
        simp [overallSummaryRows, hacc]
      · simpa using hfold

/-- Witness for C2 (amended) at a concrete one-driver session. -/
theorem c2_overall_row_witness :
    countOverall (process_race_data 2024 "Monaco Grand Prix" ⟨[driverB]⟩ emptyDB)
      2024 "Monaco Grand Prix" = 1 ∧
    ∃ r ∈ (process_race_data 2024 "Monaco Grand Prix" ⟨[driverB]⟩ emptyDB).lap_summary,
      r.year = 2024 ∧ r.race_name = "Monaco Grand Prix" ∧ r.lap_category = "overall" ∧
        some r.lap_time = minList (successFastestTimes ([driverB] : List Driver)) :=
  c2_overall_row 2024 "Monaco Grand Prix" ⟨[driverB]⟩ emptyDB (by decide) (by decide)

/-! ## The dashboard render pipeline of src/streamlit/app.py -/

/-- The static driver lookup table of app.py (lines 28-51):
code ↦ (name, team). -/
def driver_dict : List (String × String × String) :=
  [("RUS", "George Russell", "Mercedes"),
   ("ALB", "Alexander Albon", "Williams"),
   ("HUL", "Nico Hülkenberg", "Haas"),
   ("SAI", "Carlos Sainz Jr.", "Ferrari"),
   ("HAM", "Lewis Hamilton", "Mercedes"),
   ("BOT", "Valtteri Bottas", "Kick Sauber"),
   ("MAG", "Kevin Magnussen", "Haas"),
   ("LAW", "Liam Lawson", "Visa Cash App RB"),
   ("COL", "Franco Colapinto", "Williams"),
   ("ALO", "Fernando Alonso", "Aston Martin"),
   ("PIA", "Oscar Piastri", "McLaren"),
   ("RIC", "Daniel Ricciardo", "Visa Cash App RB"),
   ("VER", "Max Verstappen", "Red Bull Racing"),
   ("STR", "Lance Stroll", "Aston Martin"),
   ("PER", "Sergio Pérez", "Red Bull Racing"),
   ("OCO", "Esteban Ocon", "Alpine"),
   ("GAS", "Pierre Gasly", "Alpine"),
   ("ZHO", "Zhou Guanyu", "Kick Sauber"),
   ("TSU", "Yuki Tsunoda", "Visa Cash App RB"),
   ("LEC", "Charles Leclerc", "Ferrari"),
   ("NOR", "Lando Norris", "McLaren"),
   ("SAR", "Logan Sargeant", "Williams")]

/-- Lookup `driver_dict[code]['name']`; `none` models the `KeyError`. -/
def driverName (code : String) : Option String :=
  (driver_dict.find? fun e => e.1 == code).map fun e => e.2.1

/-- Model of SQL `TRIM`: strips leading and trailing spaces. -/
def sqlTrim (s : String) : String :=
  ⟨((s.data.dropWhile fun c => c == ' ').reverse.dropWhile fun c => c == ' ').reverse⟩

/-- Helper for `SELECT DISTINCT`: first occurrence of each value kept. -/
def distinctAux (seen : List String) : List String → List String
  | [] => []
  | c :: rest =>
      if seen.contains c then distinctAux seen rest
      else c :: distinctAux (c :: seen) rest

/-- The `SELECT DISTINCT driver_code FROM lap_summary WHERE year = 2024 AND
TRIM(race_name) = ?` query of `get_drivers` (app.py lines 89-94). -/
def distinctDriverCodes (db : DB) (race_name : String) : List String :=
  distinctAux []
    ((db.lap_summary.filter fun r =>
        r.year == 2024 && sqlTrim r.race_name == race_name).map
      fun r => r.driver_code)

/-- Model of `get_drivers` (app.py lines 87-98): runs the DISTINCT query and
builds the selectbox options via `driver_dict[code]`, which raises
`KeyError` when a code is absent from the static table. This function is
called at line 100, OUTSIDE the `try` that starts at line 142. -/
def get_drivers (db : DB) (race_name : String) : Except String (List String) :=
  let codes := distinctDriverCodes db race_name
  if codes.all fun c => (driverName c).isSome then Except.ok codes
  else Except.error "KeyError"

/-- Model of `get_lap_options` (app.py lines 109-118): all `lap_summary`
rows for the year-2024 race and driver. -/
def get_lap_options (db : DB) (race_name driver_code : String) : List LapSummaryRow :=
  db.lap_summary.filter fun r =>
    r.year == 2024 && sqlTrim r.race_name == race_name && r.driver_code == driver_code

/-- The overall-fastest lookup of app.py lines 150-153: `lap_summary` rows
of the race with `lap_category = 'overall'`. -/
def overallQuery (db : DB) (race_name : String) : List LapSummaryRow :=
  db.lap_summary.filter fun r =>
    r.year == 2024 && sqlTrim r.race_name == race_name && r.lap_category == "overall"

/-- Possible outcomes of one run of the dashboard script:
an exception escaping `main` uncaught; a user-facing `st.error` followed by
`st.stop()`; the generic `except Exception` handler of line 303; or a
successfully drawn frame. -/
inductive Outcome where
  | uncaught (msg : String)
  | stopped (msg : String)
  | caughtError (msg : String)
  | rendered
deriving DecidableEq

/-- The tail of `main` from the big `try` (app.py line 142) onward. Inside
the `try`, the empty-overall check uses `st.error` + `st.stop()`;
`st.stop()` raises a `BaseException`-derived control exception that the
`except Exception` clause at line 303 does not catch, so only the specific
message is shown. Every other failure inside the block (telemetry reshaping,
numpy, plotting) is abstracted by the `plotOk` flag; when one occurs the
handler shows the generic message. -/
def mainFromTry (db : DB) (race_name : String) (plotOk : Bool) : Outcome :=
  let fastest_driver_df := overallQuery db race_name
  if fastest_driver_df.isEmpty then
    Outcome.stopped ("No overall fastest lap found for " ++ race_name)
  else if plotOk then Outcome.rendered
  else Outcome.caughtError "An error occurred"

/-- The part of `main` from the lap-options query (app.py lines 120-136)
onward, for the chosen driver: an empty lap result aborts with a message;
a missing fastest/slowest row raises `IndexError`, caught locally (lines
134-136); otherwise the script enters the big `try`. -/
def mainFromLaps (db : DB) (race_name selected_driver : String) (plotOk : Bool) :
    Outcome :=
  let lap_df := get_lap_options db race_name selected_driver
  if lap_df.isEmpty then
    Outcome.stopped ("No laps found for " ++ selected_driver ++ " in " ++ race_name)
  else
    match lap_df.find? (fun r => r.lap_category == "fastest"),
          lap_df.find? (fun r => r.lap_category == "slowest") with
    | some _, some _ => mainFromTry db race_name plotOk
    | _, _ =>
        Outcome.stopped ("Could not find fastest/slowest laps for " ++ selected_driver)

/-- Model of `main` (app.py lines 64-305) for a given database state, race
selection, driver selectbox position, and abstract render-failure flag.
The `get_drivers` call and its option-dict construction run before the
`try` of line 142, so a `KeyError` there escapes `main` uncaught. -/
def main (db : DB) (race_name : String) (selDriver : Nat) (plotOk : Bool) :
    Outcome :=
  match get_drivers db race_name with
  | Except.error e => Outcome.uncaught e
  | Except.ok options =>
    if options.isEmpty then Outcome.stopped ("No drivers found for " ++ race_name)
    else
      let selected_driver := options.getD (selDriver % options.length) ""
      mainFromLaps db race_name selected_driver plotOk

/-! ## Claim C8: empty query results abort rendering -/

theorem mainFromTry_ne_uncaught (db : DB) (race_name : String) (plotOk : Bool)
    (m : String) : mainFromTry db race_name plotOk ≠ Outcome.uncaught m := by
  unfold mainFromTry
  by_cases h : (overallQuery db race_name).isEmpty <;> cases plotOk <;> simp [h]

theorem mainFromLaps_ne_uncaught (db : DB) (race_name driver : String)
    (plotOk : Bool) (m : String) :
    mainFromLaps db race_name driver plotOk ≠ Outcome.uncaught m := by
  unfold mainFromLaps
  by_cases h : (get_lap_options db race_name driver).isEmpty
  · simp [h]
  · cases hf : (get_lap_options db race_name driver).find?
        (fun r => r.lap_category == "fastest") <;>
      cases hs : (get_lap_options db race_name driver).find?
          (fun r => r.lap_category == "slowest") <;>
        simp [h, hf, hs, mainFromTry_ne_uncaught]

/-- C8: whenever one of the three lookup queries comes back empty — no
drivers for the race, no laps for the driver, or no `overall` row for the
race — the script stops with a user-facing error message at that point
instead of proceeding to draw. -/
theorem c8_empty_results_abort :
    (∀ (db : DB) (race : String) (selD : Nat) (plotOk : Bool),
      distinctDriverCodes db race = [] →
        main db race selD plotOk = Outcome.stopped ("No drivers found for " ++ race)) ∧
    (∀ (db : DB) (race driver : String) (plotOk : Bool),
      get_lap_options db race driver = [] →
        mainFromLaps db race driver plotOk =
          Outcome.stopped ("No laps found for " ++ driver ++ " in " ++ race)) ∧
    (∀ (db : DB) (race : String) (plotOk : Bool),
      overallQuery db race = [] →
        mainFromTry db race plotOk =
          Outcome.stopped ("No overall fastest lap found for " ++ race)) := by
  refine ⟨fun db race selD plotOk h => ?_, fun db race driver plotOk h => ?_,
    fun db race plotOk h => ?_⟩
  · unfold main get_drivers
    simp [h]
  · simp [mainFromLaps, h]
  · simp [mainFromTry, h]

/-- Witness for C8 at three concrete database states. -/
theorem c8_empty_results_abort_witness :
    main emptyDB "Monaco Grand Prix" 0 true =
      Outcome.stopped ("No drivers found for " ++ "Monaco Grand Prix") ∧
    mainFromLaps emptyDB "Monaco Grand Prix" "VER" true =
      Outcome.stopped ("No laps found for " ++ "VER" ++ " in " ++ "Monaco Grand Prix") ∧
    mainFromTry emptyDB "Monaco Grand Prix" true =
      Outcome.stopped ("No overall fastest lap found for " ++ "Monaco Grand Prix") :=
  ⟨c8_empty_results_abort.1 emptyDB "Monaco Grand Prix" 0 true rfl,
   c8_empty_results_abort.2.1 emptyDB "Monaco Grand Prix" "VER" true rfl,
   c8_empty_results_abort.2.2 emptyDB "Monaco Grand Prix" true rfl⟩

/-! ## Claim C6: which exceptions the top-level handler catches -/

/-- Database whose race rows mention a driver code that `driver_dict`
does not contain. -/
def dbMissingDriver : DB :=
  ⟨[⟨2024, "Monaco Grand Prix", "XYZ", "fastest", 1, 70⟩], []⟩

/-- C6 (counterexample): an exception raised in the render path is NOT
always caught: the option-dict construction in `get_drivers` (app.py line
97) runs before the `try` of line 142, and with a driver code absent from
`driver_dict` its `KeyError` escapes `main` uncaught — not an empty-result
case and not the generic handler. -/
theorem c6_counterexample :
    main dbMissingDriver "Monaco Grand Prix" 0 true = Outcome.uncaught "KeyError" := by
  decide

/-- C6 (amended): exceptions raised inside the telemetry-query-and-draw
`try` block (app.py lines 142-301) are caught by the top-level handler and
surfaced as the generic message; and provided every driver code stored for
the race is present in `driver_dict`, no exception escapes `main` uncaught.
Exceptions in the earlier driver-selection stage (a `KeyError` for an
unknown code) do escape, as the counterexample shows. -/
theorem c6_try_block_catches (db : DB) (race_name : String) (selDriver : Nat)
    (hcodes : ∀ c ∈ distinctDriverCodes db race_name, (driverName c).isSome = true) :
    (∀ (plotOk : Bool) (m : String),
      main db race_name selDriver plotOk ≠ Outcome.uncaught m) ∧
    (overallQuery db race_name ≠ [] →
      mainFromTry db race_name false = Outcome.caughtError "An error occurred") := by
  constructor
  · intro plotOk m
    unfold main get_drivers
    have hall : ((distinctDriverCodes db race_name).all
        fun c => (driverName c).isSome) = true := by
      rw [List.all_eq_true]
      exact fun c hc => hcodes c hc
    simp only [hall, if_true]
    by_cases he : (distinctDriverCodes db race_name).isEmpty
    · simp [he]
    · simp [he, mainFromLaps_ne_uncaught]
  · intro hne
    cases h : overallQuery db race_name with
    | nil => exact absurd h hne
    | cons a l => simp [mainFromTry, h]

/-- Database state for the C6 witness: one driver known to `driver_dict`,
with `fastest`, `slowest` and `overall` rows for the race. -/
def dbGood : DB :=
  ⟨[⟨2024, "Monaco Grand Prix", "VER", "fastest", 1, 70⟩,
    ⟨2024, "Monaco Grand Prix", "VER", "slowest", 2, 80⟩,
    ⟨2024, "Monaco Grand Prix", "VER", "overall", 1, 70⟩], []⟩

/-- Witness for C6 (amended) at a concrete database state. -/
theorem c6_try_block_catches_witness :
    main dbGood "Monaco Grand Prix" 0 false ≠ Outcome.uncaught "KeyError" ∧
    mainFromTry dbGood "Monaco Grand Prix" false =
      Outcome.caughtError "An error occurred" :=
  ⟨(c6_try_block_catches dbGood "Monaco Grand Prix" 0 (by decide)).1 false "KeyError",
   (c6_try_block_catches dbGood "Monaco Grand Prix" 0 (by decide)).2 (by decide)⟩

/-! ## Claim C3: linear interpolation endpoints -/

/-- The interpolation of a marker coordinate between two successive samples
(app.py lines 229-236): `(1 - alpha) * prev + alpha * next`. -/
def interpPosition (alpha p q : ℚ) : ℚ := (1 - alpha) * p + alpha * q

/-- The marker coordinate drawn by `create_frame_plot`: the coordinate array
is read at the valid indices selected for the previous and next frame and
linearly interpolated with weight `alpha`. -/
def create_frame_plot_marker (tel : List ℚ) (valid : List Nat)
    (prev_idx next_idx : Nat) (alpha : ℚ) : ℚ :=
  interpPosition alpha (tel.getD (valid.getD prev_idx 0) 0)
    (tel.getD (valid.getD next_idx 0) 0)

/-- C3: at `alpha = 0` the interpolated marker position equals the earlier
sample's position; at `alpha = 1` it equals the later sample's position
(the limit it approaches as `alpha` tends to 1: the offset from the later
position scales with `1 - alpha`). -/
theorem c3_interpolation_endpoints (tel : List ℚ) (valid : List Nat) (i j : Nat) :
    create_frame_plot_marker tel valid i j 0 = tel.getD (valid.getD i 0) 0 ∧
    create_frame_plot_marker tel valid i j 1 = tel.getD (valid.getD j 0) 0 ∧
    ∀ alpha : ℚ,
      create_frame_plot_marker tel valid i j alpha - tel.getD (valid.getD j 0) 0 =
        (1 - alpha) * (tel.getD (valid.getD i 0) 0 - tel.getD (valid.getD j 0) 0) := by
  refine ⟨?_, ?_, fun alpha => ?_⟩ <;>
    unfold create_frame_plot_marker interpPosition <;> ring

/-! ## Claim C10: frame-index derivation stays in bounds -/

/-- Constant `interpolation_factor` (app.py line 178). -/
def interpolation_factor : Nat := 3

/-- Derivation `prev_idx = int(frame_idx / interpolation_factor)` (app.py
lines 221-222): floor division, since both operands are nonnegative. -/
def prev_idx_of (frame_idx : Nat) : Nat := frame_idx / interpolation_factor

/-- Derivation `next_idx = min(prev_idx + 1, frame_count - 1)` (app.py
line 223). -/
def next_idx_of (frame_idx frame_count : Nat) : Nat :=
  min (prev_idx_of frame_idx + 1) (frame_count - 1)

/-- C10: for every frame index in the slider range
`[0, frame_count * interpolation_factor - 1]` with `frame_count ≥ 1`,
the derived indices satisfy `prev_idx ≤ next_idx ≤ frame_count - 1`, so
every access into the valid-index arrays (of length ≥ `frame_count`) is in
bounds. -/
theorem c10_frame_indices_in_bounds (frame_count frame_idx : Nat)
    (h1 : 1 ≤ frame_count)
    (h2 : frame_idx ≤ frame_count * interpolation_factor - 1) :
    prev_idx_of frame_idx ≤ next_idx_of frame_idx frame_count ∧
    next_idx_of frame_idx frame_count ≤ frame_count - 1 ∧
    ∀ n : Nat, frame_count ≤ n →
      prev_idx_of frame_idx < n ∧ next_idx_of frame_idx frame_count < n := by
  unfold next_idx_of prev_idx_of interpolation_factor at *
  refine ⟨?_, ?_, fun n hn => ⟨?_, ?_⟩⟩ <;> omega

/-- Witness for C10 at the last slider frame of a two-sample animation. -/
theorem c10_frame_indices_in_bounds_witness :
    prev_idx_of 5 ≤ next_idx_of 5 2 ∧ next_idx_of 5 2 ≤ 2 - 1 ∧
    ∀ n : Nat, 2 ≤ n → prev_idx_of 5 < n ∧ next_idx_of 5 2 < n :=
  c10_frame_indices_in_bounds 2 5 (by decide) (by decide)

end F1Track
